import Mathlib

/-!
Verification of the svg2sheet spritesheet generator against its design
specification.  The Go sources are shallowly embedded: pure functions become
Lean functions, `int` values (validated non-negative by the CLI layer) become
`ℕ`, Go `float64` arithmetic is modelled exactly over `ℚ` (all concrete
inputs used below are exactly representable in binary64, so the modelled
values coincide with the values the Go program computes), fallible
operations return `Except`/`Option`, and the imperative drawing of tiles
onto the canvas is modelled as the list of destination rectangles passed to
`draw.Draw`, in draw order.
-/

namespace Svg2Sheet

/-- A pixel, as Go's RGBA quadruple. -/
structure RGBA where
  r : ℕ
  g : ℕ
  b : ℕ
  a : ℕ

/-- The fully transparent zero pixel. -/
def transparentPx : RGBA := ⟨0, 0, 0, 0⟩

/-- An in-memory raster image (Go `image.Image`): bounds normalised to the
origin, with a total pixel function (Go's `At` returns the zero colour
outside bounds). -/
structure GoImage where
  width : ℕ
  height : ℕ
  px : ℕ → ℕ → RGBA

/-- The configuration fields consumed by the spritesheet generator
(`internal/config.Config`; I/O-only fields such as paths and verbosity are
not part of the algorithms modelled here). -/
structure Config where
  tileWidth : ℕ
  tileHeight : ℕ
  cols : ℕ
  rows : ℕ
  padding : ℕ
  trim : Bool

/-- Embeds `internal/spritesheet.Layout`. -/
structure Layout where
  cols : ℕ
  rows : ℕ
  tileWidth : ℕ
  tileHeight : ℕ
  padding : ℕ
  width : ℕ
  height : ℕ
deriving DecidableEq

/-- Embeds `internal/spritesheet.ImageInfo`. -/
structure ImageInfo where
  image : GoImage
  filename : String
  width : ℕ
  height : ℕ

/-- Embeds `internal/metadata.SpriteInfo`. -/
structure SpriteInfo where
  name : String
  x : ℕ
  y : ℕ
  width : ℕ
  height : ℕ
  index : ℕ
deriving DecidableEq

/-- Embeds `internal/metadata.SpritesheetMetadata`. -/
structure SpritesheetMetadata where
  width : ℕ
  height : ℕ
  tileWidth : ℕ
  tileHeight : ℕ
  cols : ℕ
  rows : ℕ
  padding : ℕ
  sprites : List SpriteInfo
deriving DecidableEq

/-- Models `int(math.Ceil(float64(a) / float64(b)))` for the non-negative
machine integers the generator feeds it (exact: binary64 arithmetic and
`math.Ceil` compute the true ceiling of the quotient at these magnitudes). -/
def goCeilDiv (a b : ℕ) : ℕ := (a + b - 1) / b

/-- Models `int(math.Ceil(math.Sqrt(float64(n))))`: the least `k` with
`n ≤ k * k` (exact for the tile counts involved). -/
def ceilSqrtNat (n : ℕ) : ℕ :=
  if Nat.sqrt n * Nat.sqrt n = n then Nat.sqrt n else Nat.sqrt n + 1

/-- Embeds `Generator.calculateLayout` (`internal/spritesheet/generator.go`). -/
def calculateLayout (cfg : Config) (imageCount : ℕ) : Layout :=
  let cr : ℕ × ℕ :=
    if 0 < cfg.cols then
      (cfg.cols, goCeilDiv imageCount cfg.cols)
    else if 0 < cfg.rows then
      (goCeilDiv imageCount cfg.rows, cfg.rows)
    else
      let c := ceilSqrtNat imageCount
      (c, goCeilDiv imageCount c)
  { cols := cr.1
    rows := cr.2
    tileWidth := cfg.tileWidth
    tileHeight := cfg.tileHeight
    padding := cfg.padding
    width := cr.1 * cfg.tileWidth + (cr.1 - 1) * cfg.padding
    height := cr.2 * cfg.tileHeight + (cr.2 - 1) * cfg.padding }

/-- Embeds `Generator.getSpriteName` (the identity on the already-processed
filename). -/
def getSpriteName (filename : String) : String := filename

/-- One iteration of the placement loop of `Generator.createSpritesheet`:
the sprite-metadata entry recorded for the tile at ordinal `i`. -/
def spriteFor (layout : Layout) (filename : String) (i : ℕ) : SpriteInfo :=
  let col := i % layout.cols
  let row := i / layout.cols
  let x := col * (layout.tileWidth + layout.padding)
  let y := row * (layout.tileHeight + layout.padding)
  { name := getSpriteName filename
    x := x
    y := y
    width := layout.tileWidth
    height := layout.tileHeight
    index := i }

/-- The destination rectangle `image.Rect(x, y, x+tileWidth, y+tileHeight)`
passed to `draw.Draw` for the tile at ordinal `i`. -/
def placeRect (layout : Layout) (i : ℕ) : ℕ × ℕ × ℕ × ℕ :=
  let x := (i % layout.cols) * (layout.tileWidth + layout.padding)
  let y := (i / layout.cols) * (layout.tileHeight + layout.padding)
  (x, y, x + layout.tileWidth, y + layout.tileHeight)

/-- The sprite list built by the `for i, imgInfo := range images` loop of
`createSpritesheet`, with `k` the value of the loop counter at entry. -/
def buildSprites (layout : Layout) : List ImageInfo → ℕ → List SpriteInfo
  | [], _ => []
  | info :: rest, k => spriteFor layout info.filename k :: buildSprites layout rest (k + 1)

/-- The draw calls issued by the same loop, as destination rectangles in
draw order. -/
def buildPlacements (layout : Layout) : List ImageInfo → ℕ → List (ℕ × ℕ × ℕ × ℕ)
  | [], _ => []
  | _ :: rest, k => placeRect layout k :: buildPlacements layout rest (k + 1)

/-- The canvas (as its list of drawn rectangles) and metadata produced by
`Generator.createSpritesheet`. -/
structure SheetResult where
  placements : List (ℕ × ℕ × ℕ × ℕ)
  meta : SpritesheetMetadata

/-- The value `createSpritesheet` computes: metadata header copied from the
layout, sprites and draw rectangles from the placement loop. -/
def composeCore (images : List ImageInfo) (layout : Layout) : SheetResult :=
  { placements := buildPlacements layout images 0
    meta :=
      { width := layout.width
        height := layout.height
        tileWidth := layout.tileWidth
        tileHeight := layout.tileHeight
        cols := layout.cols
        rows := layout.rows
        padding := layout.padding
        sprites := buildSprites layout images 0 } }

/-- Embeds `Generator.createSpritesheet`.  Its Go signature returns an
`error`, but the body has no failing path: it unconditionally returns the
composed sheet with a nil error. -/
def createSpritesheet (images : List ImageInfo) (layout : Layout) :
    Except String SheetResult :=
  Except.ok (composeCore images layout)

/-- Embeds `utils.TrimTransparent`: the coordinates of pixels with positive
alpha, in the scan order of the Go nested loop. -/
def opaquePoints (img : GoImage) : List (ℕ × ℕ) :=
  (List.range img.height).flatMap fun y =>
    (List.range img.width).filterMap fun x =>
      if 0 < (img.px x y).a then some (x, y) else none

/-- Embeds `utils.TrimTransparent`: crop to the tight bounding box of
non-transparent pixels, or a 1×1 transparent image if none exists. -/
def trimTransparent (img : GoImage) : GoImage :=
  match opaquePoints img with
  | [] => { width := 1, height := 1, px := fun _ _ => transparentPx }
  | p :: ps =>
      let minX := ps.foldl (fun m q => min m q.1) p.1
      let maxX := ps.foldl (fun m q => max m q.1) p.1
      let minY := ps.foldl (fun m q => min m q.2) p.2
      let maxY := ps.foldl (fun m q => max m q.2) p.2
      { width := maxX - minX + 1
        height := maxY - minY + 1
        px := fun x y =>
          if x + minX ≤ maxX ∧ y + minY ≤ maxY then img.px (x + minX) (y + minY)
          else transparentPx }

/-- Embeds `utils.ResizeImage` (nearest-neighbour; identity when the sizes
already match).  The sampled source index `int(float64(x) * scaleX)` is
modelled by exact arithmetic as `x * srcWidth / width`, clamped as in the
source. -/
def resizeImage (img : GoImage) (width height : ℕ) : GoImage :=
  if img.width = width ∧ img.height = height then img
  else
    { width := width
      height := height
      px := fun x y =>
        let srcX := min (x * img.width / width) (img.width - 1)
        let srcY := min (y * img.height / height) (img.height - 1)
        img.px srcX srcY }

/-- The value of the `img` variable of `Generator.processImage` after the
optional trim step. -/
def preTrimmed (cfg : Config) (img : GoImage) : GoImage :=
  if cfg.trim then trimTransparent img else img

/-- Embeds `Generator.processImage`: optional trim, then resize to the tile
dimensions when they do not already match. -/
def processImage (cfg : Config) (img : GoImage) : GoImage :=
  if (preTrimmed cfg img).width ≠ cfg.tileWidth ∨
      (preTrimmed cfg img).height ≠ cfg.tileHeight then
    resizeImage (preTrimmed cfg img) cfg.tileWidth cfg.tileHeight
  else preTrimmed cfg img

/-- Embeds `Generator.loadImages` over already-decoded PNGs: the file-system
reads and PNG decoding are I/O; each decoded image is processed and wrapped
in an `ImageInfo` carrying its post-processing dimensions.  The
path-basename/extension stripping of the sprite name is pure string I/O
plumbing; names are taken as given. -/
def loadImages (cfg : Config) (inputs : List (String × GoImage)) : List ImageInfo :=
  inputs.map fun nm =>
    let processed := processImage cfg nm.2
    { image := processed
      filename := nm.1
      width := processed.width
      height := processed.height }

/-- The error message `Generate` returns on an empty input list. -/
def msgNoPNG : String := "no PNG files provided"

/-- Embeds `Generator.Generate` over decoded inputs (saving the PNG to disk
is I/O and is dropped). -/
def generate (cfg : Config) (inputs : List (String × GoImage)) :
    Except String SpritesheetMetadata :=
  if inputs.length = 0 then Except.error msgNoPNG
  else
    let images := loadImages cfg inputs
    let layout := calculateLayout cfg images.length
    match createSpritesheet images layout with
    | Except.ok r => Except.ok r.meta
    | Except.error e => Except.error e

/-- Embeds `svg.ConversionOptions` (`internal/svg/interface.go`; the
verbosity flag only controls logging). -/
structure ConversionOptions where
  scale : ℚ
  width : ℤ
  height : ℤ

/-- Models Go's `int(f)` conversion for a `float64` value: truncation toward
zero, computed here on the exact rational value. -/
def goInt (q : ℚ) : ℤ :=
  if 0 ≤ q then ((q.num.toNat / q.den : ℕ) : ℤ)
  else -(((-q).num.toNat / (-q).den : ℕ) : ℤ)

/-- Embeds `ConversionOptions.CalculateDimensions`: the five resolution
rules, in source order, over exact rational source dimensions.  Note the Go
function returns a plain `(int, int)` pair: it has no error path. -/
def calculateDimensions (opts : ConversionOptions) (origWidth origHeight : ℚ) : ℤ × ℤ :=
  if opts.scale = 0 ∧ opts.width = 0 ∧ opts.height = 0 then
    (goInt origWidth, goInt origHeight)
  else if 0 < opts.scale then
    (goInt (origWidth * opts.scale), goInt (origHeight * opts.scale))
  else if 0 < opts.width ∧ 0 < opts.height then
    (opts.width, opts.height)
  else if 0 < opts.width then
    (opts.width, goInt ((opts.width : ℚ) * (origHeight / origWidth)))
  else if 0 < opts.height then
    (goInt ((opts.height : ℚ) * (origWidth / origHeight)), opts.height)
  else
    (goInt origWidth, goInt origHeight)

/-- A converter backend as the registry sees it: the data returned by its
interface methods.  `availabilityErr` is the result of `IsAvailable`
(`none` = available); probing the execution environment is I/O and is
abstracted into this field. -/
structure SVGConverterModel where
  name : String
  description : String
  availabilityErr : Option String

/-- Embeds `svg.ConverterRegistry`: identifiers mapped to factories. -/
structure ConverterRegistryModel where
  converters : List (String × (ConversionOptions → SVGConverterModel))

/-- The two registry error types of `internal/svg/interface.go`
(`ConverterNotFoundError`, `ConverterUnavailableError`). -/
inductive CreateError where
  | notFound (converterType : String)
  | unavailable (converterType : String) (reason : String)
deriving DecidableEq

/-- Map lookup `r.converters[converterType]`. -/
def lookupFactory (r : ConverterRegistryModel) (t : String) :
    Option (ConversionOptions → SVGConverterModel) :=
  (r.converters.find? fun p => p.1 == t).map fun p => p.2

/-- Embeds `ConverterRegistry.Create`: resolve the factory, instantiate,
then check availability before handing the instance out. -/
def createConverter (r : ConverterRegistryModel) (t : String)
    (opts : ConversionOptions) : Except CreateError SVGConverterModel :=
  match lookupFactory r t with
  | none => Except.error (CreateError.notFound t)
  | some factory =>
      let conv := factory opts
      match conv.availabilityErr with
      | some reason => Except.error (CreateError.unavailable t reason)
      | none => Except.ok conv

/-- Go `strings.HasPrefix` on character lists. -/
def listStarts : List Char → List Char → Bool
  | _, [] => true
  | [], _ :: _ => false
  | a :: as, b :: bs => a == b && listStarts as bs

/-- Go `strings.Index` (first index of a substring, `none` for -1). -/
def goIndex : List Char → List Char → Option ℕ
  | [], pat => if pat.isEmpty then some 0 else none
  | c :: rest, pat =>
      if listStarts (c :: rest) pat then some 0
      else (goIndex rest pat).map (· + 1)

/-- Go `strings.TrimSuffix`: drop one trailing occurrence if present. -/
def trimSuffixGo (s suf : List Char) : List Char :=
  if listStarts s.reverse suf.reverse then s.take (s.length - suf.length) else s

/-- Go `unicode.IsSpace` restricted to the whitespace that occurs in SVG
attribute values. -/
def isSpaceGo (c : Char) : Bool :=
  c == ' ' || c == '\t' || c == '\n' || c == '\r'

/-- Worker for `strings.Fields`: split on whitespace runs. -/
def splitFieldsAux : List Char → List Char → List (List Char)
  | [], acc => if acc.isEmpty then [] else [acc.reverse]
  | c :: rest, acc =>
      if isSpaceGo c then
        if acc.isEmpty then splitFieldsAux rest []
        else acc.reverse :: splitFieldsAux rest []
      else splitFieldsAux rest (c :: acc)

/-- Go `strings.Fields`. -/
def fieldsGo (s : List Char) : List (List Char) := splitFieldsAux s []

/-- Numeric value of a decimal digit character. -/
def natOfDigits (ds : List Char) : ℕ :=
  ds.foldl (fun acc c => acc * 10 + (c.toNat - 48)) 0

/-- The exponent tail of a float token, after the consumed `e`/`E` marker:
an optional sign and the exponent digits.  An exponent marker with no
digits makes the whole token invalid (`strconv.ParseFloat` rejects a token
such as "5e"), mirroring the Go scanner, which has already committed to the
marker at this point. -/
def parseWithExp (mantissa : ℤ) (fracLen : ℕ) (s : List Char) : Option ℚ :=
  let signed : Bool × List Char :=
    match s with
    | '-' :: r => (true, r)
    | '+' :: r => (false, r)
    | _ => (false, s)
  let expDigits := signed.2.takeWhile Char.isDigit
  if expDigits.isEmpty then none
  else
    let e := natOfDigits expDigits
    if signed.1 then some (mkRat mantissa (10 ^ fracLen * 10 ^ e))
    else some (mkRat (mantissa * 10 ^ e) (10 ^ fracLen))

/-- Models the `fmt.Sscanf(s, "%f", ...)` call of `parseFloatRod` /
`parseFloatRSVG` as Go's fmt scanner behaves: skip leading spaces,
accumulate the longest float-shaped token (optional sign, decimal digits,
optional fraction, optional exponent), convert that token with
`strconv.ParseFloat`, and ignore any unconsumed trailing input — so "5r"
scans as 5 and "100%" as 100 with a nil error, while a token with no
mantissa digit, or an exponent marker without digits, is a scan error.
NaN/Inf and hexadecimal or underscore-separated literals do not occur in
SVG attribute values and are outside the model; decimal values are taken
exactly (binary64 rounding of `ParseFloat` is the identity on the inputs
considered here). -/
def parseDecimal (s : List Char) : Option ℚ :=
  let s1 := s.dropWhile fun c => c == ' ' || c == '\t'
  let signed : ℤ × List Char :=
    match s1 with
    | '-' :: r => (-1, r)
    | '+' :: r => (1, r)
    | _ => (1, s1)
  let sign := signed.1
  let rest := signed.2
  let intDigits := rest.takeWhile Char.isDigit
  let afterInt := rest.dropWhile Char.isDigit
  let fracSplit : List Char × List Char :=
    match afterInt with
    | '.' :: fr => (fr.takeWhile Char.isDigit, fr.dropWhile Char.isDigit)
    | _ => ([], afterInt)
  let fracDigits := fracSplit.1
  let afterFrac := fracSplit.2
  if intDigits.isEmpty && fracDigits.isEmpty then none
  else
    let mantissa : ℤ :=
      sign * (natOfDigits intDigits * 10 ^ fracDigits.length + natOfDigits fracDigits)
    match afterFrac with
    | 'e' :: er => parseWithExp mantissa fracDigits.length er
    | 'E' :: er => parseWithExp mantissa fracDigits.length er
    | _ => some (mkRat mantissa (10 ^ fracDigits.length))

/-- The unit-suffix strings stripped by `parseFloatRod`/`parseFloatRSVG`. -/
def pxSuffix : List Char := "px".toList

/-- Point unit suffix. -/
def ptSuffix : List Char := "pt".toList

/-- Em unit suffix. -/
def emSuffix : List Char := "em".toList

/-- Root-em unit suffix (stripped after "em", so it never matches intact). -/
def remSuffix : List Char := "rem".toList

/-- Embeds `parseFloatRod` (`internal/svg/rod_converter.go`); the body of
`parseFloatRSVG` in `rsvg_converter.go` is identical. -/
def parseFloatRod (s : List Char) : Option ℚ :=
  parseDecimal
    (trimSuffixGo (trimSuffixGo (trimSuffixGo (trimSuffixGo s pxSuffix) ptSuffix) emSuffix)
      remSuffix)

/-- The search pattern for the viewBox attribute. -/
def viewBoxPat : List Char := "viewBox=\"".toList

/-- The search pattern for the width attribute. -/
def widthPat : List Char := "width=\"".toList

/-- The search pattern for the height attribute. -/
def heightPat : List Char := "height=\"".toList

/-- The quote-delimited attribute value after the first occurrence of `pat`:
`strings.Index` for the pattern, then `strings.Index` for the closing
quote. -/
def attrValue (s pat : List Char) : Option (List Char) :=
  match goIndex s pat with
  | none => none
  | some i =>
      let rest := s.drop (i + pat.length)
      match goIndex rest ['"'] with
      | none => none
      | some j => some (rest.take j)

/-- The whitespace-split fields of the viewBox attribute, if present. -/
def viewBoxParts (s : List Char) : Option (List (List Char)) :=
  (attrValue s viewBoxPat).map fieldsGo

/-- The width taken from the viewBox (field 2), when the attribute exists,
has at least four fields and the field parses. -/
def viewBoxW (s : List Char) : Option ℚ :=
  match viewBoxParts s with
  | some parts => if 4 ≤ parts.length then (parts.get? 2).bind parseFloatRod else none
  | none => none

/-- The height taken from the viewBox (field 3). -/
def viewBoxH (s : List Char) : Option ℚ :=
  match viewBoxParts s with
  | some parts => if 4 ≤ parts.length then (parts.get? 3).bind parseFloatRod else none
  | none => none

/-- The parsed explicit width attribute, when present and parseable. -/
def widthAttr (s : List Char) : Option ℚ :=
  (attrValue s widthPat).bind parseFloatRod

/-- The parsed explicit height attribute. -/
def heightAttr (s : List Char) : Option ℚ :=
  (attrValue s heightPat).bind parseFloatRod

/-- Embeds `parseSVGDimensions` (identical bodies in
`internal/svg/rod_converter.go` and `internal/svg/rsvg_converter.go`): start
from the 100×100 fallback, overwrite from the viewBox when parseable, then
overwrite again from the explicit width/height attributes when parseable —
each Go `if` block is an assignment guarded on successful parsing, so a
later successful block wins over an earlier one. -/
def parseSVGDimensions (s : List Char) : ℚ × ℚ :=
  ((widthAttr s).getD ((viewBoxW s).getD 100),
   (heightAttr s).getD ((viewBoxH s).getD 100))

/-- JSON values as `encoding/json` produces them for `SpritesheetMetadata`
(numbers here are the non-negative integers that occur in the struct). -/
inductive Json where
  | jnum (n : ℕ)
  | jstr (s : String)
  | jarr (elems : List Json)
  | jobj (fields : List (String × Json))

/-- The struct tag "name". -/
def keyName : String := "name"

/-- The struct tag "x". -/
def keyX : String := "x"

/-- The struct tag "y". -/
def keyY : String := "y"

/-- The struct tag "width". -/
def keyWidth : String := "width"

/-- The struct tag "height". -/
def keyHeight : String := "height"

/-- The struct tag "index". -/
def keyIndex : String := "index"

/-- The struct tag "tile_width". -/
def keyTileWidth : String := "tile_width"

/-- The struct tag "tile_height". -/
def keyTileHeight : String := "tile_height"

/-- The struct tag "cols". -/
def keyCols : String := "cols"

/-- The struct tag "rows". -/
def keyRows : String := "rows"

/-- The struct tag "padding". -/
def keyPadding : String := "padding"

/-- The struct tag "sprites". -/
def keySprites : String := "sprites"

/-- How `json.Marshal` renders one `SpriteInfo`, per its struct tags. -/
def marshalSprite (sp : SpriteInfo) : Json :=
  Json.jobj [(keyName, Json.jstr sp.name), (keyX, Json.jnum sp.x), (keyY, Json.jnum sp.y),
    (keyWidth, Json.jnum sp.width), (keyHeight, Json.jnum sp.height),
    (keyIndex, Json.jnum sp.index)]

/-- How `Exporter.Export` (`json.MarshalIndent` on the tagged struct)
renders a `SpritesheetMetadata`; indentation is presentation only. -/
def marshalMetadata (m : SpritesheetMetadata) : Json :=
  Json.jobj [(keyWidth, Json.jnum m.width), (keyHeight, Json.jnum m.height),
    (keyTileWidth, Json.jnum m.tileWidth), (keyTileHeight, Json.jnum m.tileHeight),
    (keyCols, Json.jnum m.cols), (keyRows, Json.jnum m.rows),
    (keyPadding, Json.jnum m.padding),
    (keySprites, Json.jarr (m.sprites.map marshalSprite))]

/-- JSON object field lookup by key. -/
def jLookup (fields : List (String × Json)) (k : String) : Option Json :=
  (fields.find? fun p => p.1 == k).map fun p => p.2

/-- Decode an integer field as `json.Unmarshal` does: a missing key leaves
the zero value, a non-number is a type error. -/
def jGetNat (fields : List (String × Json)) (k : String) : Option ℕ :=
  match jLookup fields k with
  | none => some 0
  | some (Json.jnum n) => some n
  | some _ => none

/-- Decode a string field (missing key leaves the empty string). -/
def jGetStr (fields : List (String × Json)) (k : String) : Option String :=
  match jLookup fields k with
  | none => some ""
  | some (Json.jstr s) => some s
  | some _ => none

/-- Decode one element of the "sprites" array. -/
def unmarshalSprite : Json → Option SpriteInfo
  | Json.jobj fs => do
      let name ← jGetStr fs keyName
      let x ← jGetNat fs keyX
      let y ← jGetNat fs keyY
      let w ← jGetNat fs keyWidth
      let h ← jGetNat fs keyHeight
      let idx ← jGetNat fs keyIndex
      pure ⟨name, x, y, w, h, idx⟩
  | _ => none

/-- Decode the sprites array element by element; any bad element fails the
whole decode, as `json.Unmarshal` does for a slice. -/
def unmarshalSprites : List Json → Option (List SpriteInfo)
  | [] => some []
  | j :: rest =>
      match unmarshalSprite j, unmarshalSprites rest with
      | some s, some ss => some (s :: ss)
      | _, _ => none

/-- Embeds `Exporter.LoadMetadata` (`json.Unmarshal` into the tagged
struct), on an already-lexed JSON value. -/
def unmarshalMetadata : Json → Option SpritesheetMetadata
  | Json.jobj fs => do
      let w ← jGetNat fs keyWidth
      let h ← jGetNat fs keyHeight
      let tw ← jGetNat fs keyTileWidth
      let th ← jGetNat fs keyTileHeight
      let cols ← jGetNat fs keyCols
      let rows ← jGetNat fs keyRows
      let pad ← jGetNat fs keyPadding
      let spritesJson ←
        match jLookup fs keySprites with
        | none => some ([] : List Json)
        | some (Json.jarr xs) => some xs
        | some _ => none
      let sprites ← unmarshalSprites spritesJson
      pure ⟨w, h, tw, th, cols, rows, pad, sprites⟩
  | _ => none

/-! Concrete inputs used to instantiate the theorems below. -/

/-- An opaque black pixel. -/
def blackPx : RGBA := ⟨0, 0, 0, 255⟩

/-- A `w × h` image of opaque pixels. -/
def solidImage (w h : ℕ) : GoImage :=
  { width := w, height := h, px := fun _ _ => blackPx }

/-- Sprite name "a". -/
def nameA : String := "a"

/-- Sprite name "b". -/
def nameB : String := "b"

/-- Sprite name "c". -/
def nameC : String := "c"

/-- A loaded 64×64 tile with the given name. -/
def tile64 (nm : String) : ImageInfo :=
  { image := solidImage 64 64, filename := nm, width := 64, height := 64 }

/-- Three 64×64 tiles, in caller order. -/
def imgs3 : List ImageInfo := [tile64 nameA, tile64 nameB, tile64 nameC]

/-- A layout with 64×64 tiles, padding 2, two columns (canvas 130×130). -/
def layout3 : Layout :=
  { cols := 2, rows := 2, tileWidth := 64, tileHeight := 64, padding := 2,
    width := 130, height := 130 }

/-- A mis-sized 32×32 tile. -/
def info32 : ImageInfo :=
  { image := solidImage 32 32, filename := nameA, width := 32, height := 32 }

/-- A layout expecting 64×64 tiles with no padding. -/
def layout64 : Layout :=
  { cols := 2, rows := 2, tileWidth := 64, tileHeight := 64, padding := 0,
    width := 128, height := 128 }

/-- An SVG source carrying both a viewBox (30×40) and explicit width/height
attributes (50px × 60) with different values. -/
def svgBoth : List Char :=
  "<svg viewBox=\"0 0 30 40\" width=\"50px\" height=\"60\"></svg>".toList

/-- A rem-suffixed attribute value: the em-strip leaves "5r", whose numeric
prefix still scans as 5. -/
def remVal : List Char := "5rem".toList

/-- A percent-suffixed attribute value: the scanner takes the prefix 100
and ignores the percent sign. -/
def pctVal : List Char := "100%".toList

/-- Configuration: 64×64 tiles, 3 columns, no padding, no trim. -/
def cfg7 : Config :=
  { tileWidth := 64, tileHeight := 64, cols := 3, rows := 0, padding := 0, trim := false }

/-- Configuration with trimming enabled. -/
def cfgTrim : Config :=
  { tileWidth := 64, tileHeight := 64, cols := 2, rows := 0, padding := 0, trim := true }

/-- A 2×2 input image with a single opaque pixel, so trimming changes its
size before the resize step. -/
def rawImg2 : GoImage :=
  { width := 2, height := 2,
    px := fun x y => if x = 0 ∧ y = 0 then blackPx else transparentPx }

/-- A one-file input list. -/
def inputsT : List (String × GoImage) := [(nameA, rawImg2)]

/-- The `ImageInfo` that `loadImages` produces for `inputsT`. -/
def infoT : ImageInfo :=
  { image := processImage cfgTrim rawImg2
    filename := nameA
    width := (processImage cfgTrim rawImg2).width
    height := (processImage cfgTrim rawImg2).height }

/-- Scale-only conversion options with scale 1/4. -/
def optsScale14 : ConversionOptions := { scale := mkRat 1 4, width := 0, height := 0 }

/-- Width-only conversion options with width 5. -/
def optsWidth5 : ConversionOptions := { scale := 0, width := 5, height := 0 }

/-- Empty conversion options. -/
def optsNoop : ConversionOptions := { scale := 0, width := 0, height := 0 }

/-- An always-available backend (the in-process rasterizer). -/
def okConv : SVGConverterModel :=
  { name := "OkSVG", description := "Pure Go SVG renderer", availabilityErr := none }

/-- The unavailability reason of a host without rsvg-convert. -/
def rsvgReason : String := "rsvg-convert command not found"

/-- A registered backend whose availability probe fails on this host. -/
def rsvgConv : SVGConverterModel :=
  { name := "RSVG (librsvg)", description := "System rsvg-convert command",
    availabilityErr := some rsvgReason }

/-- The identifier "oksvg". -/
def oksvgId : String := "oksvg"

/-- The identifier "rsvg". -/
def rsvgId : String := "rsvg"

/-- An identifier registered by no factory. -/
def unknownId : String := "unknown"

/-- A registry with one available and one unavailable backend. -/
def regEx : ConverterRegistryModel :=
  { converters := [(oksvgId, fun _ => okConv), (rsvgId, fun _ => rsvgConv)] }

/-! Helper lemmas shared by the claim theorems. -/

theorem buildSprites_length (layout : Layout) (images : List ImageInfo) (k : ℕ) :
    (buildSprites layout images k).length = images.length := by
  induction images generalizing k with
  | nil => rfl
  | cons a rest ih => simp [buildSprites, ih]

theorem buildPlacements_length (layout : Layout) (images : List ImageInfo) (k : ℕ) :
    (buildPlacements layout images k).length = images.length := by
  induction images generalizing k with
  | nil => rfl
  | cons a rest ih => simp [buildPlacements, ih]

theorem buildSprites_get? (layout : Layout) (images : List ImageInfo) (k i : ℕ) :
    (buildSprites layout images k).get? i =
      (images.get? i).map fun info => spriteFor layout info.filename (k + i) := by
  induction images generalizing k i with
  | nil => simp [buildSprites]
  | cons a rest ih =>
      cases i with
      | zero => simp [buildSprites]
      | succ n =>
          have h := ih (k + 1) n
          rw [show (k + 1) + n = k + (n + 1) from by omega] at h
          simpa only [buildSprites, List.get?_cons_succ] using h

theorem buildPlacements_get? (layout : Layout) (images : List ImageInfo) (k i : ℕ) :
    (buildPlacements layout images k).get? i =
      (images.get? i).map fun _ => placeRect layout (k + i) := by
  induction images generalizing k i with
  | nil => simp [buildPlacements]
  | cons a rest ih =>
      cases i with
      | zero => simp [buildPlacements]
      | succ n =>
          have h := ih (k + 1) n
          rw [show (k + 1) + n = k + (n + 1) from by omega] at h
          simpa only [buildPlacements, List.get?_cons_succ] using h

theorem mem_buildSprites (layout : Layout) (images : List ImageInfo) (k : ℕ)
    (s : SpriteInfo) (hs : s ∈ buildSprites layout images k) :
    ∃ i, i < images.length ∧ ∃ nm, s = spriteFor layout nm (k + i) := by
  induction images generalizing k with
  | nil => cases hs
  | cons a rest ih =>
      rcases List.mem_cons.mp hs with h | h
      · exact ⟨0, by simp, a.filename, by simpa using h⟩
      · obtain ⟨i, hi, nm, hnm⟩ := ih (k + 1) h
        refine ⟨i + 1, by simp only [List.length_cons]; omega, nm, ?_⟩
        rw [hnm, show k + (i + 1) = (k + 1) + i from by omega]

theorem le_mul_goCeilDiv (n d : ℕ) (hd : 0 < d) : n ≤ d * goCeilDiv n d := by
  unfold goCeilDiv
  have h1 := Nat.div_add_mod (n + d - 1) d
  have h2 := Nat.mod_lt (n + d - 1) hd
  generalize hp : d * ((n + d - 1) / d) = p at h1 ⊢
  generalize hr : (n + d - 1) % d = r at h1 h2
  omega

theorem goCeilDiv_pos (n d : ℕ) (hd : 0 < d) (hn : 0 < n) : 0 < goCeilDiv n d := by
  unfold goCeilDiv
  exact (Nat.one_le_div_iff hd).mpr (by omega)

theorem goCeilDiv_mul_le (n d : ℕ) : goCeilDiv n d * d ≤ n + d - 1 :=
  Nat.div_mul_le_self _ _

theorem ceilSqrtNat_pos (n : ℕ) (hn : 0 < n) : 0 < ceilSqrtNat n := by
  unfold ceilSqrtNat
  split
  · rename_i h
    rcases Nat.eq_zero_or_pos (Nat.sqrt n) with h0 | h0
    · rw [h0] at h
      simp only [Nat.mul_zero] at h
      omega
    · exact h0
  · omega

theorem goCeilDiv_eq_ceil (a b : ℕ) (hb : 0 < b) :
    ⌈(a : ℚ) / (b : ℚ)⌉₊ = goCeilDiv a b := by
  rcases Nat.eq_zero_or_pos a with ha | ha
  · subst ha
    simp [goCeilDiv, Nat.div_eq_of_lt (show b - 1 < b by omega)]
  · have hq : 0 < goCeilDiv a b := goCeilDiv_pos a b hb ha
    have hbq : (0 : ℚ) < (b : ℚ) := by exact_mod_cast hb
    rw [Nat.ceil_eq_iff hq.ne']
    constructor
    · rw [lt_div_iff hbq]
      have h1 : goCeilDiv a b * b ≤ a + b - 1 := goCeilDiv_mul_le a b
      have h2 : (goCeilDiv a b - 1) * b < a := by
        obtain ⟨m, hm⟩ : ∃ m, goCeilDiv a b = m + 1 := ⟨goCeilDiv a b - 1, by omega⟩
        rw [hm] at h1 ⊢
        simp only [Nat.add_sub_cancel]
        rw [show (m + 1) * b = m * b + b from by ring] at h1
        generalize hmb : m * b = mb at h1 ⊢
        omega
      calc ((goCeilDiv a b - 1 : ℕ) : ℚ) * (b : ℚ)
          = (((goCeilDiv a b - 1) * b : ℕ) : ℚ) := by push_cast; ring
        _ < (a : ℚ) := by exact_mod_cast h2
    · rw [div_le_iff hbq]
      have h3 := le_mul_goCeilDiv a b hb
      calc (a : ℚ) ≤ ((b * goCeilDiv a b : ℕ) : ℚ) := by exact_mod_cast h3
        _ = (goCeilDiv a b : ℚ) * (b : ℚ) := by push_cast; ring

theorem ceilSqrtNat_eq_ceil (n : ℕ) : ⌈Real.sqrt n⌉₊ = ceilSqrtNat n := by
  rcases Nat.eq_zero_or_pos n with h0 | hn
  · subst h0
    simp [ceilSqrtNat]
  · have hs1 : Nat.sqrt n * Nat.sqrt n ≤ n := Nat.sqrt_le n
    have hs2 : n < (Nat.sqrt n + 1) * (Nat.sqrt n + 1) := Nat.lt_succ_sqrt n
    by_cases hsq : Nat.sqrt n * Nat.sqrt n = n
    · have h1 : ceilSqrtNat n = Nat.sqrt n := by simp [ceilSqrtNat, hsq]
      have h2 : (n : ℝ) = (Nat.sqrt n : ℝ) * (Nat.sqrt n : ℝ) := by exact_mod_cast hsq.symm
      rw [h1, h2, Real.sqrt_mul_self (by positivity)]
      exact Nat.ceil_natCast (α := ℝ) _
    · have h1 : ceilSqrtNat n = Nat.sqrt n + 1 := by simp [ceilSqrtNat, hsq]
      rw [h1, Nat.ceil_eq_iff (by omega)]
      constructor
      · simp only [Nat.add_sub_cancel]
        rw [Real.lt_sqrt (by positivity)]
        have hlt : Nat.sqrt n * Nat.sqrt n < n := lt_of_le_of_ne hs1 hsq
        calc (Nat.sqrt n : ℝ) ^ 2 = ((Nat.sqrt n * Nat.sqrt n : ℕ) : ℝ) := by push_cast; ring
          _ < (n : ℝ) := by exact_mod_cast hlt
      · rw [Real.sqrt_le_left (by positivity)]
        calc (n : ℝ) ≤ (((Nat.sqrt n + 1) * (Nat.sqrt n + 1) : ℕ) : ℝ) := by
              exact_mod_cast hs2.le
          _ = ((Nat.sqrt n + 1 : ℕ) : ℝ) ^ 2 := by push_cast; ring

theorem nat_div_eq_floor (n d : ℕ) (hd : 0 < d) :
    ((n / d : ℕ) : ℤ) = ⌊(n : ℚ) / (d : ℚ)⌋ := by
  have hdq : (0 : ℚ) < (d : ℚ) := by exact_mod_cast hd
  symm
  rw [Int.floor_eq_iff]
  constructor
  · rw [le_div_iff hdq]
    have h1 : (n / d) * d ≤ n := Nat.div_mul_le_self _ _
    calc (((n / d : ℕ) : ℤ) : ℚ) * (d : ℚ)
        = (((n / d) * d : ℕ) : ℚ) := by rw [Int.cast_natCast, Nat.cast_mul]
      _ ≤ (n : ℚ) := by exact_mod_cast h1
  · rw [div_lt_iff hdq]
    have h3 := Nat.div_add_mod n d
    have h4 := Nat.mod_lt n hd
    have h2 : n < (n / d + 1) * d := by
      rw [show (n / d + 1) * d = d * (n / d) + d from by ring]
      generalize hp : d * (n / d) = p at h3 ⊢
      generalize hr : n % d = r at h3 h4
      omega
    calc (n : ℚ) < (((n / d + 1) * d : ℕ) : ℚ) := by exact_mod_cast h2
      _ = ((((n / d : ℕ) : ℤ) : ℚ) + 1) * (d : ℚ) := by
          rw [Int.cast_natCast, Nat.cast_mul, Nat.cast_add, Nat.cast_one]

theorem goInt_eq_floor (q : ℚ) (hq : 0 ≤ q) : goInt q = ⌊q⌋ := by
  unfold goInt
  rw [if_pos hq]
  have hnum : 0 ≤ q.num := Rat.num_nonneg.mpr hq
  rw [nat_div_eq_floor q.num.toNat q.den q.den_pos]
  congr 1
  rw [show ((q.num.toNat : ℕ) : ℚ) = ((q.num : ℤ) : ℚ) from by
    exact_mod_cast congrArg (fun z : ℤ => (z : ℚ)) (Int.toNat_of_nonneg hnum)]
  exact Rat.num_div_den q

theorem resizeImage_width (img : GoImage) (w h : ℕ) : (resizeImage img w h).width = w := by
  unfold resizeImage
  split
  · rename_i hc
    exact hc.1
  · rfl

theorem resizeImage_height (img : GoImage) (w h : ℕ) : (resizeImage img w h).height = h := by
  unfold resizeImage
  split
  · rename_i hc
    exact hc.2
  · rfl

theorem processImage_width (cfg : Config) (img : GoImage) :
    (processImage cfg img).width = cfg.tileWidth := by
  unfold processImage
  split
  · exact resizeImage_width _ _ _
  · rename_i hc
    rcases not_or.mp hc with ⟨h1, -⟩
    exact not_not.mp h1

theorem processImage_height (cfg : Config) (img : GoImage) :
    (processImage cfg img).height = cfg.tileHeight := by
  unfold processImage
  split
  · exact resizeImage_height _ _ _
  · rename_i hc
    rcases not_or.mp hc with ⟨-, h2⟩
    exact not_not.mp h2

theorem spriteFor_bound_x (L : Layout) (nm : String) (n : ℕ) (hcols : 0 < L.cols)
    (hW : L.width = L.cols * L.tileWidth + (L.cols - 1) * L.padding) :
    (spriteFor L nm n).x + (spriteFor L nm n).width ≤ L.width := by
  show (n % L.cols) * (L.tileWidth + L.padding) + L.tileWidth ≤ L.width
  obtain ⟨m, hm⟩ : ∃ m, L.cols = m + 1 := ⟨L.cols - 1, by omega⟩
  rw [hW, hm]
  have hmod : n % (m + 1) ≤ m :=
    Nat.lt_succ_iff.mp (Nat.mod_lt n (Nat.succ_pos m))
  calc (n % (m + 1)) * (L.tileWidth + L.padding) + L.tileWidth
      ≤ m * (L.tileWidth + L.padding) + L.tileWidth :=
        Nat.add_le_add_right (Nat.mul_le_mul_right _ hmod) _
    _ = (m + 1) * L.tileWidth + ((m + 1) - 1) * L.padding := by
        simp only [Nat.add_sub_cancel]; ring

theorem spriteFor_bound_y (L : Layout) (nm : String) (n count : ℕ) (hcols : 0 < L.cols)
    (hn : n < count) (hcr : count ≤ L.cols * L.rows)
    (hH : L.height = L.rows * L.tileHeight + (L.rows - 1) * L.padding) :
    (spriteFor L nm n).y + (spriteFor L nm n).height ≤ L.height := by
  show (n / L.cols) * (L.tileHeight + L.padding) + L.tileHeight ≤ L.height
  have hrow : n / L.cols < L.rows := by
    rw [Nat.div_lt_iff_lt_mul hcols]
    calc n < count := hn
      _ ≤ L.cols * L.rows := hcr
      _ = L.rows * L.cols := by ring
  have hrows : 0 < L.rows := lt_of_le_of_lt (Nat.zero_le _) hrow
  obtain ⟨m, hm⟩ : ∃ m, L.rows = m + 1 := ⟨L.rows - 1, (Nat.succ_pred_eq_of_pos hrows).symm⟩
  rw [hm] at hrow
  rw [hH, hm]
  have hdiv : n / L.cols ≤ m := Nat.lt_succ_iff.mp hrow
  calc (n / L.cols) * (L.tileHeight + L.padding) + L.tileHeight
      ≤ m * (L.tileHeight + L.padding) + L.tileHeight :=
        Nat.add_le_add_right (Nat.mul_le_mul_right _ hdiv) _
    _ = (m + 1) * L.tileHeight + ((m + 1) - 1) * L.padding := by
        simp only [Nat.add_sub_cancel]; ring

/-! Claim theorems. -/

/-- C1: for every non-empty ordered tile sequence and layout with
`columns > 0`, `createSpritesheet` draws the tile at 0-based ordinal `i` at
pixel origin `x = (i mod cols) * (tileWidth + padding)`,
`y = (i div cols) * (tileHeight + padding)`, and the `i`-th sprite entry of
the metadata records exactly that `x` and `y`, `width = tileWidth`,
`height = tileHeight` and `index = i`, in caller order. -/
theorem c1_compose_row_major (images : List ImageInfo) (layout : Layout)
    (hcols : 0 < layout.cols) (hne : images ≠ []) (i : ℕ) (hi : i < images.length) :
    createSpritesheet images layout = Except.ok (composeCore images layout) ∧
    ∃ info, images.get? i = some info ∧
      (composeCore images layout).meta.sprites.get? i = some
        { name := getSpriteName info.filename
          x := (i % layout.cols) * (layout.tileWidth + layout.padding)
          y := (i / layout.cols) * (layout.tileHeight + layout.padding)
          width := layout.tileWidth
          height := layout.tileHeight
          index := i } ∧
      (composeCore images layout).placements.get? i = some
        ((i % layout.cols) * (layout.tileWidth + layout.padding),
          (i / layout.cols) * (layout.tileHeight + layout.padding),
          (i % layout.cols) * (layout.tileWidth + layout.padding) + layout.tileWidth,
          (i / layout.cols) * (layout.tileHeight + layout.padding) + layout.tileHeight) := by
  obtain ⟨info, hinfo⟩ : ∃ info, images.get? i = some info :=
    ⟨images.get ⟨i, hi⟩, List.get?_eq_get hi⟩
  refine ⟨rfl, info, hinfo, ?_, ?_⟩
  · show (buildSprites layout images 0).get? i = _
    rw [buildSprites_get?, hinfo]
    simp [spriteFor, Nat.zero_add]
  · show (buildPlacements layout images 0).get? i = _
    rw [buildPlacements_get?, hinfo]
    simp [placeRect, Nat.zero_add]

/-- C1 witness: three 64×64 tiles with padding 2 and 2 columns get origins
(0,0), (66,0), (0,66), instantiating the theorem at ordinal 2. -/
theorem c1_compose_row_major_witness :
    (((composeCore imgs3 layout3).meta.sprites.map fun s => (s.x, s.y)) =
      [(0, 0), (66, 0), (0, 66)]) ∧
    (∃ info, imgs3.get? 2 = some info ∧
      (composeCore imgs3 layout3).meta.sprites.get? 2 = some
        { name := getSpriteName info.filename
          x := (2 % layout3.cols) * (layout3.tileWidth + layout3.padding)
          y := (2 / layout3.cols) * (layout3.tileHeight + layout3.padding)
          width := layout3.tileWidth
          height := layout3.tileHeight
          index := 2 } ∧
      (composeCore imgs3 layout3).placements.get? 2 = some
        ((2 % layout3.cols) * (layout3.tileWidth + layout3.padding),
          (2 / layout3.cols) * (layout3.tileHeight + layout3.padding),
          (2 % layout3.cols) * (layout3.tileWidth + layout3.padding) + layout3.tileWidth,
          (2 / layout3.cols) * (layout3.tileHeight + layout3.padding) + layout3.tileHeight)) :=
  ⟨by decide,
    (c1_compose_row_major imgs3 layout3 (by decide) (List.cons_ne_nil _ _) 2 (by decide)).2⟩

/-- C2 counterexample: a tile whose dimensions differ from the layout's
tile size is not rejected — `createSpritesheet` succeeds and produces a
sheet with a sprite entry, so the claimed `TileSizeMismatchError` does not
exist in the code. -/
theorem c2_counterexample_no_mismatch_error :
    info32.width ≠ layout64.tileWidth ∧
    createSpritesheet [info32] layout64 = Except.ok (composeCore [info32] layout64) ∧
    (composeCore [info32] layout64).meta.sprites.length = 1 :=
  ⟨by decide, rfl, by decide⟩

/-- C2 amended: `createSpritesheet` performs no tile-size check and always
succeeds, returning one sprite entry per tile regardless of the tiles'
actual dimensions (mis-sized tiles are drawn clipped into the cell, not
rejected); the empty-input check lives in `Generate`, which fails with the
error "no PNG files provided" before composing. -/
theorem c2_amended_compose_total (cfg : Config) (images : List ImageInfo) (layout : Layout) :
    (∃ r, createSpritesheet images layout = Except.ok r ∧
      r.meta.sprites.length = images.length) ∧
    generate cfg [] = Except.error msgNoPNG :=
  ⟨⟨composeCore images layout, rfl, buildSprites_length layout images 0⟩, rfl⟩

/-- C3: `calculateLayout` uses the column hint when positive (rows by
ceiling division), else the row hint (columns by ceiling division), else a
square-ish default `cols = ceil(sqrt(tileCount))`; the canvas is
`cols*tileWidth + (cols-1)*padding` by `rows*tileHeight + (rows-1)*padding`. -/
theorem c3_calculate_layout (cfg : Config) (tileCount : ℕ) (hcount : 0 < tileCount)
    (htw : 0 < cfg.tileWidth) (hth : 0 < cfg.tileHeight)
    (hhints : cfg.cols = 0 ∨ cfg.rows = 0) :
    (0 < cfg.cols →
      (calculateLayout cfg tileCount).cols = cfg.cols ∧
      (calculateLayout cfg tileCount).rows = ⌈(tileCount : ℚ) / (cfg.cols : ℚ)⌉₊) ∧
    (cfg.cols = 0 → 0 < cfg.rows →
      (calculateLayout cfg tileCount).rows = cfg.rows ∧
      (calculateLayout cfg tileCount).cols = ⌈(tileCount : ℚ) / (cfg.rows : ℚ)⌉₊) ∧
    (cfg.cols = 0 → cfg.rows = 0 →
      (calculateLayout cfg tileCount).cols = ⌈Real.sqrt tileCount⌉₊ ∧
      (calculateLayout cfg tileCount).rows =
        ⌈(tileCount : ℚ) / ((calculateLayout cfg tileCount).cols : ℚ)⌉₊) ∧
    (calculateLayout cfg tileCount).width =
      (calculateLayout cfg tileCount).cols * cfg.tileWidth +
        ((calculateLayout cfg tileCount).cols - 1) * cfg.padding ∧
    (calculateLayout cfg tileCount).height =
      (calculateLayout cfg tileCount).rows * cfg.tileHeight +
        ((calculateLayout cfg tileCount).rows - 1) * cfg.padding := by
  refine ⟨?_, ?_, ?_, rfl, rfl⟩
  · intro h1
    constructor
    · simp [calculateLayout, h1]
    · rw [goCeilDiv_eq_ceil tileCount cfg.cols h1]
      simp [calculateLayout, h1]
  · intro h1 h2
    constructor
    · simp [calculateLayout, h1, h2]
    · rw [goCeilDiv_eq_ceil tileCount cfg.rows h2]
      simp [calculateLayout, h1, h2]
  · intro h1 h2
    have hc : (calculateLayout cfg tileCount).cols = ceilSqrtNat tileCount := by
      simp [calculateLayout, h1, h2]
    refine ⟨by rw [hc, ceilSqrtNat_eq_ceil], ?_⟩
    rw [hc, goCeilDiv_eq_ceil tileCount (ceilSqrtNat tileCount) (ceilSqrtNat_pos _ hcount)]
    simp [calculateLayout, h1, h2]

/-- C3 witness: `calculateLayout` with 7 tiles of 64×64, padding 0 and a
column hint of 3 yields columns 3, rows 3 and a 192×192 canvas. -/
theorem c3_calculate_layout_witness :
    calculateLayout cfg7 7 =
      { cols := 3, rows := 3, tileWidth := 64, tileHeight := 64, padding := 0,
        width := 192, height := 192 } ∧
    (0 < cfg7.cols →
      (calculateLayout cfg7 7).cols = cfg7.cols ∧
      (calculateLayout cfg7 7).rows = ⌈((7 : ℕ) : ℚ) / (cfg7.cols : ℚ)⌉₊) :=
  ⟨by decide,
    (c3_calculate_layout cfg7 7 (by decide) (by decide) (by decide) (Or.inr rfl)).1⟩

/-- C4 counterexample: on a source carrying both a parseable viewBox
(30×40) and parseable explicit width/height (50px × 60), the probe returns
the explicit attribute values, not the viewBox values the claim demands. -/
theorem c4_counterexample_viewbox_not_preferred :
    viewBoxW svgBoth = some 30 ∧ viewBoxH svgBoth = some 40 ∧
    widthAttr svgBoth = some 50 ∧ heightAttr svgBoth = some 60 ∧
    parseSVGDimensions svgBoth = (50, 60) ∧
    ((50 : ℚ), (60 : ℚ)) ≠ ((30 : ℚ), (40 : ℚ)) := by decide

/-- C4 amended: the explicit width/height attributes are parsed after the
viewBox and override it, so whenever both are present and parseable the
probe returns the explicit attribute pair.  Unit suffixes px, pt, em and
rem are still handled before numeric parsing: the first three by
`TrimSuffix`, and rem-suffixed values because the em-strip leaves a
trailing "r" that the scanner's prefix tokenization ignores. -/
theorem c4_amended_explicit_overrides (s : List Char) (w h : ℚ)
    (hw : widthAttr s = some w) (hh : heightAttr s = some h) :
    parseSVGDimensions s = (w, h) := by
  unfold parseSVGDimensions
  rw [hw, hh]
  rfl

/-- C4 witness: the theorem applied to the concrete source (whose width
attribute carries a px suffix), plus the rem and percent scanning facts of
the amended text. -/
theorem c4_amended_explicit_overrides_witness :
    widthAttr svgBoth = some 50 ∧ heightAttr svgBoth = some 60 ∧
    parseSVGDimensions svgBoth = (50, 60) ∧
    parseFloatRod remVal = some 5 ∧ parseFloatRod pctVal = some 100 :=
  ⟨by decide, by decide,
    c4_amended_explicit_overrides svgBoth 50 60 (by decide) (by decide),
    by decide, by decide⟩

/-- C5 counterexample: with source 1000×1 and only width 5 requested, the
resolved height is 0, and `CalculateDimensions` returns the pair `(5, 0)`
instead of failing — its Go signature `(int, int)` has no error path, so no
`InvalidDimensionError` is ever produced. -/
theorem c5_counterexample_nonpositive_returned :
    calculateDimensions optsWidth5 1000 1 = (5, 0) ∧
    ¬ 0 < (calculateDimensions optsWidth5 1000 1).2 := by
  have h : calculateDimensions optsWidth5 1000 1 = (5, 0) := by
    rw [show optsWidth5 = ⟨0, 5, 0⟩ from rfl]
    unfold calculateDimensions
    dsimp only
    rw [if_neg (by decide), if_neg (lt_irrefl (0 : ℚ)), if_neg (by decide),
      if_pos (by decide)]
    rw [goInt_eq_floor _ (by positivity)]
    norm_num
  exact ⟨h, by rw [h]; decide⟩

/-- C5 amended: when the aspect-preserving height truncates to zero
(`W * h < w` with only width `W` set), dimension resolution returns the
pair `(W, 0)` — a non-positive height — rather than failing; the code
defines no `InvalidDimensionError`. -/
theorem c5_amended_returns_nonpositive (w h : ℚ) (W : ℤ) (hw : 0 < w) (hh : 0 < h)
    (hW : 0 < W) (hsmall : (W : ℚ) * h < w) :
    calculateDimensions { scale := 0, width := W, height := 0 } w h = (W, 0) := by
  unfold calculateDimensions
  dsimp only
  rw [if_neg (by rintro ⟨-, h2, -⟩; omega), if_neg (lt_irrefl (0 : ℚ)),
    if_neg (by rintro ⟨-, h2⟩; omega), if_pos hW]
  have hpos : (0 : ℚ) ≤ (W : ℚ) * (h / w) := by positivity
  rw [goInt_eq_floor _ hpos]
  simp only [Prod.mk.injEq, true_and]
  rw [Int.floor_eq_zero_iff, Set.mem_Ico]
  refine ⟨hpos, ?_⟩
  rw [← mul_div_assoc, div_lt_one hw]
  exact hsmall

/-- C5 witness: the theorem applied at source 1000×1, width 5. -/
theorem c5_amended_returns_nonpositive_witness :
    calculateDimensions { scale := 0, width := 5, height := 0 } 1000 1 = (5, 0) :=
  c5_amended_returns_nonpositive 1000 1 5 (by norm_num) (by norm_num) (by norm_num)
    (by norm_num)

/-- C6 counterexample: with scale 1/4 and source 7×7 the code returns
(1, 1) — `int(...)` truncation — not the claimed rounded-to-nearest
(2, 2). -/
theorem c6_counterexample_not_rounded :
    calculateDimensions optsScale14 7 7 ≠
      (round ((7 : ℚ) * mkRat 1 4), round ((7 : ℚ) * mkRat 1 4)) := by
  have h1 : calculateDimensions optsScale14 7 7 = (1, 1) := by
    rw [show optsScale14 = ⟨mkRat 1 4, 0, 0⟩ from rfl]
    unfold calculateDimensions
    dsimp only
    rw [if_neg (by decide), if_pos (by decide)]
    rw [goInt_eq_floor _ (by norm_num [Rat.mkRat_eq_div])]
    norm_num [Rat.mkRat_eq_div]
  have h2 : round ((7 : ℚ) * mkRat 1 4) = 2 := by
    norm_num [round_eq, Rat.mkRat_eq_div]
  rw [h1, h2]
  decide

/-- C6 amended: for scale `s > 0` (width and height unset), resolution
returns the scaled dimensions truncated toward zero,
`(⌊w*s⌋, ⌊h*s⌋)` — Go's `int(...)` conversion — not rounded to nearest. -/
theorem c6_amended_truncates (w h s : ℚ) (hw : 0 < w) (hh : 0 < h) (hs : 0 < s) :
    calculateDimensions { scale := s, width := 0, height := 0 } w h = (⌊w * s⌋, ⌊h * s⌋) := by
  unfold calculateDimensions
  dsimp only
  rw [if_neg (by rintro ⟨h1, -, -⟩; exact absurd h1 hs.ne'), if_pos hs,
    goInt_eq_floor _ (by positivity), goInt_eq_floor _ (by positivity)]

/-- C6 witness: the theorem applied at scale 1/4, source 7×7; the truncated
value is 1 (where rounding would give 2). -/
theorem c6_amended_truncates_witness :
    calculateDimensions { scale := mkRat 1 4, width := 0, height := 0 } 7 7 =
      (⌊(7 : ℚ) * mkRat 1 4⌋, ⌊(7 : ℚ) * mkRat 1 4⌋) ∧
    ⌊(7 : ℚ) * mkRat 1 4⌋ = 1 :=
  ⟨c6_amended_truncates 7 7 (mkRat 1 4) (by norm_num) (by norm_num) (by decide),
    by norm_num [Rat.mkRat_eq_div]⟩

/-- C7: `Create` on an unregistered identifier fails with
`ConverterNotFoundError` carrying that identifier; on a registered
identifier whose instantiated backend reports unavailability it fails with
`ConverterUnavailableError` carrying the identifier and reason; and any
backend it does return passed its availability check. -/
theorem c7_registry_create (r : ConverterRegistryModel) (t : String)
    (opts : ConversionOptions) :
    (lookupFactory r t = none →
      createConverter r t opts = Except.error (CreateError.notFound t)) ∧
    (∀ factory reason, lookupFactory r t = some factory →
      (factory opts).availabilityErr = some reason →
      createConverter r t opts = Except.error (CreateError.unavailable t reason)) ∧
    (∀ conv, createConverter r t opts = Except.ok conv → conv.availabilityErr = none) := by
  refine ⟨?_, ?_, ?_⟩
  · intro hnone
    unfold createConverter
    rw [hnone]
  · intro factory reason hf hr
    unfold createConverter
    rw [hf]
    dsimp only
    rw [hr]
  · intro conv hok
    unfold createConverter at hok
    cases hf : lookupFactory r t with
    | none => rw [hf] at hok; cases hok
    | some factory =>
        rw [hf] at hok
        dsimp only at hok
        cases ha : (factory opts).availabilityErr with
        | some reason => rw [ha] at hok; cases hok
        | none =>
            rw [ha] at hok
            cases hok
            exact ha

/-- C7 witness: in a registry with an available "oksvg" and an unavailable
"rsvg", creating "unknown" yields the not-found error and creating "rsvg"
yields the unavailable error with its reason. -/
theorem c7_registry_create_witness :
    createConverter regEx unknownId optsNoop =
      Except.error (CreateError.notFound unknownId) ∧
    createConverter regEx rsvgId optsNoop =
      Except.error (CreateError.unavailable rsvgId rsvgReason) :=
  ⟨(c7_registry_create regEx unknownId optsNoop).1 rfl,
    (c7_registry_create regEx rsvgId optsNoop).2.1 (fun _ => rsvgConv) rsvgReason rfl rfl⟩

/-- C8: serializing a `SpritesheetMetadata` to the export shape and
deserializing it back reproduces the original exactly — same canvas, tile,
grid and padding fields, and all sprites with identical fields in the same
order. -/
theorem c8_metadata_roundtrip (m : SpritesheetMetadata) :
    unmarshalMetadata (marshalMetadata m) = some m := by
  have hs : unmarshalSprites (m.sprites.map marshalSprite) = some m.sprites := by
    induction m.sprites with
    | nil => rfl
    | cons sp rest ih =>
        have h1 : unmarshalSprite (marshalSprite sp) = some sp := rfl
        show unmarshalSprites (marshalSprite sp :: rest.map marshalSprite) = some (sp :: rest)
        unfold unmarshalSprites
        rw [h1, ih]
  show (unmarshalSprites (m.sprites.map marshalSprite)).bind
      (fun sprites => some
        { width := m.width, height := m.height, tileWidth := m.tileWidth,
          tileHeight := m.tileHeight, cols := m.cols, rows := m.rows,
          padding := m.padding, sprites := sprites }) = some m
  rw [hs]
  rfl

/-- C9: every `ImageInfo` produced by the tile-loading step has dimensions
exactly equal to the configured tile size — images whose (possibly trimmed)
dimensions differ are resized to exactly that size — so the compositor only
receives correctly sized tiles. -/
theorem c9_loaded_tiles_sized (cfg : Config) (inputs : List (String × GoImage))
    (info : ImageInfo) (hmem : info ∈ loadImages cfg inputs) :
    info.width = cfg.tileWidth ∧ info.height = cfg.tileHeight ∧
    info.image.width = cfg.tileWidth ∧ info.image.height = cfg.tileHeight := by
  unfold loadImages at hmem
  rcases List.mem_map.mp hmem with ⟨nm, -, rfl⟩
  exact ⟨processImage_width cfg nm.2, processImage_height cfg nm.2,
    processImage_width cfg nm.2, processImage_height cfg nm.2⟩

/-- C9 witness: a 2×2 input (trimmed to 1×1 before resizing) is loaded at
exactly the configured 64×64 tile size. -/
theorem c9_loaded_tiles_sized_witness :
    infoT ∈ loadImages cfgTrim inputsT ∧
    infoT.width = 64 ∧ infoT.height = 64 ∧
    infoT.image.width = 64 ∧ infoT.image.height = 64 := by
  have hmem : infoT ∈ loadImages cfgTrim inputsT := List.mem_singleton.mpr rfl
  have h := c9_loaded_tiles_sized cfgTrim inputsT infoT hmem
  exact ⟨hmem, h.1, h.2.1, h.2.2.1, h.2.2.2⟩

/-- C10: for at least one tile and any hint configuration, the computed
layout has `cols * rows ≥ imageCount`, and every sprite the compositor
records with that layout satisfies `x + width ≤ canvasWidth` and
`y + height ≤ canvasHeight`. -/
theorem c10_layout_covers_and_bounds (cfg : Config) (images : List ImageInfo)
    (hne : 1 ≤ images.length) :
    images.length ≤
      (calculateLayout cfg images.length).cols * (calculateLayout cfg images.length).rows ∧
    ∀ s ∈ (composeCore images (calculateLayout cfg images.length)).meta.sprites,
      s.x + s.width ≤ (calculateLayout cfg images.length).width ∧
      s.y + s.height ≤ (calculateLayout cfg images.length).height := by
  have key : 0 < (calculateLayout cfg images.length).cols ∧
      images.length ≤
        (calculateLayout cfg images.length).cols * (calculateLayout cfg images.length).rows := by
    by_cases h1 : 0 < cfg.cols
    · have hc : (calculateLayout cfg images.length).cols = cfg.cols := by
        simp [calculateLayout, h1]
      have hr : (calculateLayout cfg images.length).rows =
          goCeilDiv images.length cfg.cols := by
        simp [calculateLayout, h1]
      rw [hc, hr]
      exact ⟨h1, le_mul_goCeilDiv _ _ h1⟩
    · by_cases h2 : 0 < cfg.rows
      · have hc : (calculateLayout cfg images.length).cols =
            goCeilDiv images.length cfg.rows := by
          simp [calculateLayout, h1, h2]
        have hr : (calculateLayout cfg images.length).rows = cfg.rows := by
          simp [calculateLayout, h1, h2]
        rw [hc, hr]
        refine ⟨goCeilDiv_pos _ _ h2 hne, ?_⟩
        calc images.length ≤ cfg.rows * goCeilDiv images.length cfg.rows :=
              le_mul_goCeilDiv _ _ h2
          _ = goCeilDiv images.length cfg.rows * cfg.rows := by ring
      · have hpos : 0 < ceilSqrtNat images.length := ceilSqrtNat_pos _ hne
        have hc : (calculateLayout cfg images.length).cols =
            ceilSqrtNat images.length := by
          simp [calculateLayout, h1, h2]
        have hr : (calculateLayout cfg images.length).rows =
            goCeilDiv images.length (ceilSqrtNat images.length) := by
          simp [calculateLayout, h1, h2]
        rw [hc, hr]
        exact ⟨hpos, le_mul_goCeilDiv _ _ hpos⟩
  refine ⟨key.2, ?_⟩
  intro s hs
  obtain ⟨i, hi, nm, rfl⟩ :=
    mem_buildSprites (calculateLayout cfg images.length) images 0 s hs
  constructor
  · exact spriteFor_bound_x _ nm _ key.1 rfl
  · exact spriteFor_bound_y _ nm (0 + i) images.length key.1 (by omega) key.2 rfl

/-- C10 witness: the theorem applied to three 64×64 tiles under the
column-hint-3 configuration. -/
theorem c10_layout_covers_and_bounds_witness :
    (imgs3.length ≤
      (calculateLayout cfg7 imgs3.length).cols * (calculateLayout cfg7 imgs3.length).rows) ∧
    ∀ s ∈ (composeCore imgs3 (calculateLayout cfg7 imgs3.length)).meta.sprites,
      s.x + s.width ≤ (calculateLayout cfg7 imgs3.length).width ∧
      s.y + s.height ≤ (calculateLayout cfg7 imgs3.length).height :=
  c10_layout_covers_and_bounds cfg7 imgs3 (by decide)

end Svg2Sheet
